import Mathlib

/-!
Verification of the idempotency subsystem of a serverless to-do API.

The development shallowly embeds the Python sources:

* `src/api/src/models/idempotency_models.py` — the record models, with the
  pydantic field validation made explicit as `Option`-returning builders;
* `src/api/src/dependecies.py` — dedup-token selection and user scoping
  (`get_request_id`), with Python `or`-truthiness made explicit;
* `src/api/src/services/idempotency_service.py` — the guard
  (`check_and_return_existing`, `store_response_async`,
  `generate_request_id`);
* `src/api/src/controllers/user_controller.py` and
  `src/api/src/controllers/task_controller.py` — the per-endpoint
  check-then-execute-then-store flows;
* `src/api/src/repositories/idempotency_repository.py` — the DynamoDB key
  layout (`IDEMPOTENCY#` ++ request_id) and its parsing on read.

Timestamps and status codes are Python ints, modelled as `Int`.  Response
bodies travel as their serialized JSON strings.  The store is modelled at
the seam the guard sees: a read either finds a record, finds nothing, or
raises (`StoreGet`); a business operation either returns a body or raises
a domain error (`BusinessOutcome`).
-/

/-- Embeds `IdempotencyCreate` of `idempotency_models.py`: one idempotency
record as written.  Field constraints live in `mkIdempotencyCreate`. -/
structure IdempotencyCreate where
  request_id : String
  response_data : String
  target_task_pk : String
  target_task_sk : String
  http_status_code : Int
  expiration_timestamp : Int
deriving DecidableEq, Repr

/-- Embeds `IdempotencyResponse` of `idempotency_models.py`: a record as
read back, carrying `created_at` as a unix timestamp. -/
structure IdempotencyResponse where
  request_id : String
  response_data : String
  target_task_pk : String
  target_task_sk : String
  http_status_code : Int
  expiration_timestamp : Int
  created_at : Int
deriving DecidableEq, Repr

/-- Embeds the pydantic validation of `IdempotencyCreate`: `request_id` has
`min_length=1, max_length=255`, `http_status_code` has `ge=100, le=599`;
construction fails (pydantic raises) outside those bounds. -/
def mkIdempotencyCreate (request_id response_data target_task_pk target_task_sk : String)
    (http_status_code expiration_timestamp : Int) : Option IdempotencyCreate :=
  if 1 ≤ request_id.length ∧ request_id.length ≤ 255 ∧
      100 ≤ http_status_code ∧ http_status_code ≤ 599 then
    some ⟨request_id, response_data, target_task_pk, target_task_sk,
      http_status_code, expiration_timestamp⟩
  else
    none

/-- Embeds the pydantic validation of `IdempotencyResponse`, which inherits
every field constraint of `IdempotencyCreate`. -/
def mkIdempotencyResponse (request_id response_data target_task_pk target_task_sk : String)
    (http_status_code expiration_timestamp created_at : Int) : Option IdempotencyResponse :=
  if 1 ≤ request_id.length ∧ request_id.length ≤ 255 ∧
      100 ≤ http_status_code ∧ http_status_code ≤ 599 then
    some ⟨request_id, response_data, target_task_pk, target_task_sk,
      http_status_code, expiration_timestamp, created_at⟩
  else
    none

/-- Embeds Python `a or b` on an optional string `a`: `None` and the empty
string are falsy, any other string wins. -/
def orElseStr (a : Option String) (b : String) : String :=
  match a with
  | some s => if s = "" then b else s
  | none => b

/-- Embeds the shared scoping expression
`f"\x7buser_id\x7d:\x7bbase_request_id\x7d" if user_id else base_request_id`
of `get_request_id` (`dependecies.py`) and
`IdempotencyService.generate_request_id`: an empty or absent user id is
falsy, so the token is used unscoped. -/
def scope_user (user_id : Option String) (base : String) : String :=
  match user_id with
  | some u => if u = "" then base else u ++ ":" ++ base
  | none => base

/-- The request headers `get_request_id` consults, plus the
`Idempotency-Key` header some controllers forward to it. -/
structure Request where
  idempotencyKeyHeader : Option String
  xRequestId : Option String
  xAmznRequestId : Option String
deriving DecidableEq, Repr

/-- Embeds the token-selection chain of `get_request_id` in
`dependecies.py`: `idempotency_key or headers[X-Request-ID] or
headers[X-Amzn-RequestId] or str(uuid.uuid4())`; `fresh` stands for the
freshly generated UUID string. -/
def pick_base (idempotency_key xRequestId xAmznRequestId : Option String)
    (fresh : String) : String :=
  orElseStr idempotency_key (orElseStr xRequestId (orElseStr xAmznRequestId fresh))

/-- Embeds `get_request_id` of `dependecies.py`: select the dedup token by
priority, then scope it by `user_id`.  The `idempotency_key` argument is
whatever the calling controller passes (the header value, or nothing). -/
def get_request_id (req : Request) (user_id : Option String)
    (idempotency_key : Option String) (fresh : String) : String :=
  scope_user user_id (pick_base idempotency_key req.xRequestId req.xAmznRequestId fresh)

/-- Embeds `IdempotencyService.generate_request_id`: `custom_id or
str(uuid.uuid4())`, scoped by `user_id`. -/
def generate_request_id (user_id : Option String) (custom_id : Option String)
    (fresh : String) : String :=
  scope_user user_id (orElseStr custom_id fresh)

/-- The user controller mutating endpoints pass the required
`Idempotency-Key` header value through to `get_request_id`. -/
def create_user_request_id (req : Request) (user_id : String) (fresh : String) : String :=
  get_request_id req (some user_id) req.idempotencyKeyHeader fresh

/-- The task controller endpoints call `get_request_id(request, user_id)`
with no `idempotency_key` argument, so the header is never consulted. -/
def create_task_request_id (req : Request) (user_id : String) (fresh : String) : String :=
  get_request_id req (some user_id) none fresh

/-- What `IdempotencyRepository.get_idempotency` delivers to the guard:
a record, nothing, or a raised exception (ClientError, validation error in
`_item_to_idempotency_response`, network failure, ...). -/
inductive StoreGet where
  | found (r : IdempotencyResponse)
  | absent
  | storeError
deriving DecidableEq, Repr

/-- Embeds `IdempotencyService.check_and_return_existing`: look the record
up; a raised exception is swallowed and becomes `none`; a found record is
dropped when `expiration_timestamp < current_timestamp` (note: strict
comparison in the source), otherwise returned. -/
def check_and_return_existing (g : StoreGet) (now : Int) : Option IdempotencyResponse :=
  match g with
  | .found r => if r.expiration_timestamp < now then none else some r
  | .absent => none
  | .storeError => none

/-- The serialized body `json.dumps` produces for the controllers' literal
`\x7b"status": "created"\x7d`. -/
def statusCreatedBody : String := "\x7b\"status\": \"created\"\x7d"

/-- The serialized body for the controllers' literal `\x7b"status": "updated"\x7d`. -/
def statusUpdatedBody : String := "\x7b\"status\": \"updated\"\x7d"

/-- The serialized body for the controllers' literal `\x7b"status": "deleted"\x7d`. -/
def statusDeletedBody : String := "\x7b\"status\": \"deleted\"\x7d"

/-- Embeds the record construction of
`IdempotencyService.store_response_async`: target keys are
`TASK#\x7buser_id\x7d` / `TASK#\x7btask_id\x7d` and
`expiration_timestamp = now + 86400`.  Pydantic validation failure is
caught by the surrounding `except`, so nothing is queued (`none`). -/
def store_response_async (request_id user_id task_id : String)
    (response_data : String) (status_code : Int) (now : Int) : Option IdempotencyCreate :=
  mkIdempotencyCreate request_id response_data
    ("TASK#" ++ user_id) ("TASK#" ++ task_id) status_code (now + 86400)

/-- The wrapped business operation as the controllers see it: it returns a
response (carried here as its serialized body) or raises (`ValueError` in
the services, mapped by the controllers to HTTP 400). -/
inductive BusinessOutcome where
  | ok (body : String)
  | domainError (msg : String)
deriving DecidableEq, Repr

/-- The HTTP-visible outcome of one controller invocation: a replayed
cached response, a freshly executed response, or a raised HTTPException. -/
inductive FlowOutcome where
  | replayed (status : Int) (body : String)
  | executed (status : Int) (body : String)
  | failed (status : Int) (detail : String)
deriving DecidableEq, Repr

/-- One controller run: its HTTP outcome, whether the business operation
was invoked, and the idempotency record it queued for storage (if any). -/
structure FlowRun where
  outcome : FlowOutcome
  invoked : Bool
  stored : Option IdempotencyCreate
deriving DecidableEq, Repr

/-- Embeds `create_user` of `user_controller.py` from the point where
`request_id` is known: on a cached hit return the stored status and body
without calling the service; otherwise run the service and, on success,
queue a record with body `\x7b"status": "created"\x7d` and status 201; a
`ValueError` becomes HTTPException 400 and nothing is stored. -/
def create_user_flow (g : StoreGet) (now : Int) (op : BusinessOutcome)
    (request_id user_id : String) : FlowRun :=
  match check_and_return_existing g now with
  | some cached =>
    { outcome := .replayed cached.http_status_code cached.response_data
      invoked := false
      stored := none }
  | none =>
    match op with
    | .ok body =>
      { outcome := .executed 201 body
        invoked := true
        stored := store_response_async request_id user_id user_id statusCreatedBody 201 now }
    | .domainError msg =>
      { outcome := .failed 400 msg
        invoked := true
        stored := none }

/-- Embeds `create_task` of `task_controller.py` from the point where
`request_id` is known: the `check_idempotency` result is awaited but
discarded, so the service runs unconditionally; on success a record with
body `\x7b"status": "created"\x7d` and status 201 is queued. -/
def create_task_flow (g : StoreGet) (now : Int) (op : BusinessOutcome)
    (request_id user_id task_id : String) : FlowRun :=
  let _cached := check_and_return_existing g now
  match op with
  | .ok body =>
    { outcome := .executed 201 body
      invoked := true
      stored := store_response_async request_id user_id task_id statusCreatedBody 201 now }
  | .domainError msg =>
    { outcome := .failed 400 msg
      invoked := true
      stored := none }

/-- Embeds `delete_user` of `user_controller.py` from the point where
`request_id` is known, on the path where the service delete succeeds: the
cached response is looked up but deliberately not returned (the code
comments that 204 responses must not carry a body), the deletion always
runs, a record with body `\x7b"status": "deleted"\x7d` and status 204 is
queued, and the endpoint returns 204 with an empty body. -/
def delete_user_flow (g : StoreGet) (now : Int) (request_id user_id : String) : FlowRun :=
  let _cached := check_and_return_existing g now
  { outcome := .executed 204 ""
    invoked := true
    stored := store_response_async request_id user_id user_id statusDeletedBody 204 now }

/-- Embeds `delete_task` of `task_controller.py` on the path where the
service delete succeeds: the check result is discarded, the deletion
always runs, the sentinel record is queued, and 204 with an empty body is
returned. -/
def delete_task_flow (g : StoreGet) (now : Int) (request_id user_id task_id : String) : FlowRun :=
  let _cached := check_and_return_existing g now
  { outcome := .executed 204 ""
    invoked := true
    stored := store_response_async request_id user_id task_id statusDeletedBody 204 now }

/-- Embeds Python `s.split("#")` (field separator `#`), accumulating the
current segment; `"".split("#") = [""]` and separators at the ends yield
empty segments, as in Python. -/
def splitHashAux : List Char → List Char → List (List Char)
  | [], acc => [acc.reverse]
  | c :: cs, acc =>
    if c = '#' then acc.reverse :: splitHashAux cs [] else splitHashAux cs (c :: acc)

/-- Python `s.split("#")` on a `String`. -/
def pySplitHash (s : String) : List String :=
  (splitHashAux s.data []).map String.mk

/-- Embeds the partition-key layout of
`IdempotencyRepository.create_idempotency`:
`pk = f"IDEMPOTENCY#\x7bidempotency.request_id\x7d"`. -/
def create_idempotency_pk (request_id : String) : String :=
  "IDEMPOTENCY#" ++ request_id

/-- Embeds `item["PK"].split("#")[1]` of
`IdempotencyRepository._item_to_idempotency_response`, the request id the
repository reconstructs from a stored partition key. -/
def item_request_id (pk : String) : String :=
  (pySplitHash pk).getD 1 ""

/-- Embeds `IdempotencyRepository._item_to_idempotency_response`: rebuild
the `IdempotencyResponse` from the stored item, parsing the request id out
of the partition key; pydantic validation applies on reconstruction. -/
def item_to_idempotency_response (pk response_data target_task_pk target_task_sk : String)
    (http_status_code expiration_timestamp created_at : Int) : Option IdempotencyResponse :=
  mkIdempotencyResponse (item_request_id pk) response_data target_task_pk target_task_sk
    http_status_code expiration_timestamp created_at

/-- The prefix of a character list before its first `#`, the reference
description of what `split("#")[1]` recovers from `IDEMPOTENCY#` ++ rid. -/
def beforeHash : List Char → List Char
  | [] => []
  | c :: cs => if c = '#' then [] else c :: beforeHash cs

/-- Python truthiness of an optional string: absent or empty. -/
def falsyStr (o : Option String) : Prop := o = none ∨ o = some ""

-- Helper lemmas about string scoping and the hash splitter.

lemma scope_colon_cancel (u1 u2 b : String) (h : u1 ++ ":" ++ b = u2 ++ ":" ++ b) :
    u1 = u2 := by
  have hd : (u1 ++ ":" ++ b).data = (u2 ++ ":" ++ b).data := congrArg String.data h
  simp only [String.data_append] at hd
  exact String.ext (List.append_cancel_right (List.append_cancel_right hd))

lemma scope_ne_of_empty (u b : String) (hu : u ≠ "") : u ++ ":" ++ b ≠ b := by
  intro h
  have hd : (u ++ ":" ++ b).data = b.data := congrArg String.data h
  simp only [String.data_append] at hd
  have hl := congrArg List.length hd
  rw [List.length_append, List.length_append] at hl
  have hone : (":" : String).data.length = 1 := rfl
  have hpos : 0 < u.data.length := by
    rcases Nat.eq_zero_or_pos u.data.length with hz | hp
    · exact absurd (String.ext (List.eq_nil_of_length_eq_zero hz)) hu
    · exact hp
  omega

lemma scope_user_inj (u1 u2 b : String) (h : u1 ≠ u2) :
    scope_user (some u1) b ≠ scope_user (some u2) b := by
  unfold scope_user
  by_cases h1 : u1 = "" <;> by_cases h2 : u2 = "" <;> simp only [h1, h2, if_pos, if_neg,
    if_true, if_false, reduceIte]
  · exact absurd (h1.trans h2.symm) h
  · exact fun he => scope_ne_of_empty u2 b h2 he.symm
  · exact scope_ne_of_empty u1 b h1
  · exact fun he => h (scope_colon_cancel u1 u2 b he)

lemma orElseStr_truthy (s b : String) (hs : s ≠ "") : orElseStr (some s) b = s := by
  simp [orElseStr, hs]

lemma orElseStr_falsy (a : Option String) (b : String) (ha : falsyStr a) :
    orElseStr a b = b := by
  rcases ha with h | h <;> subst h <;> simp [orElseStr]

lemma orElseStr_ne_empty (a : Option String) (b : String) (hb : b ≠ "") :
    orElseStr a b ≠ "" := by
  unfold orElseStr
  cases a with
  | none => exact hb
  | some s =>
    by_cases hs : s = "" <;> simp [hs, hb]

lemma splitHashAux_ne_nil (l acc : List Char) : splitHashAux l acc ≠ [] := by
  induction l generalizing acc with
  | nil => simp [splitHashAux]
  | cons c cs ih =>
    unfold splitHashAux
    split
    · simp
    · exact ih _

lemma splitHashAux_head (l acc : List Char) :
    (splitHashAux l acc).getD 0 [] = acc.reverse ++ beforeHash l := by
  induction l generalizing acc with
  | nil => simp [splitHashAux, beforeHash]
  | cons c cs ih =>
    unfold splitHashAux beforeHash
    split
    · simp
    · rw [ih]
      simp

lemma beforeHash_of_not_mem (l : List Char) (h : '#' ∉ l) : beforeHash l = l := by
  induction l with
  | nil => rfl
  | cons c cs ih =>
    unfold beforeHash
    have hc : ¬c = '#' := by
      intro hc
      exact h (by simp [hc])
    rw [if_neg hc, ih fun hm => h (List.mem_cons_of_mem c hm)]

lemma splitHash_pk_cons (rid : String) :
    splitHashAux (create_idempotency_pk rid).data [] =
      "IDEMPOTENCY".data :: splitHashAux rid.data [] := rfl

/-- A stored record whose `expiration_timestamp` equals the current time,
used to probe the expiry boundary. -/
def boundaryRecord : IdempotencyResponse :=
  ⟨"k", "\x7b\x7d", "TASK#u", "TASK#u", 200, 100, 0⟩

/-- C2, counterexample: a physically present record with
`expiration_timestamp = now` (here both 100) is NOT treated as absent —
`check_and_return_existing` returns it, because the source compares with
strict `<`; the claim demands absence already at `expires_at ≤ now`. -/
theorem check_expiry_boundary_counterexample :
    boundaryRecord.expiration_timestamp ≤ 100 ∧
    check_and_return_existing (.found boundaryRecord) 100 = some boundaryRecord := by
  exact ⟨by decide, rfl⟩

/-- C2, amended: `check_and_return_existing` treats a found record as
absent exactly when its `expiration_timestamp` is strictly below the
current time; in particular a record with `expires_at = now - 1` is
absent, while one with `expires_at = now` is still served. -/
theorem check_expiry_strict (r : IdempotencyResponse) (now : Int) :
    check_and_return_existing (.found r) now = none ↔ r.expiration_timestamp < now := by
  simp only [check_and_return_existing]
  split <;> simp_all

/-- C3: when the store read raises, the guard's check returns `none`
(a MISS), the error never reaches the caller, and the controller still
invokes the business operation and returns its own outcome. -/
theorem store_error_treated_as_miss (now : Int) (op : BusinessOutcome) (rid uid : String) :
    check_and_return_existing .storeError now = none ∧
    (create_user_flow .storeError now op rid uid).invoked = true ∧
    (create_user_flow .storeError now op rid uid).outcome =
      (match op with
       | .ok b => .executed 201 b
       | .domainError m => .failed 400 m) := by
  refine ⟨rfl, ?_, ?_⟩ <;> cases op <;> rfl

/-- C4: a domain error from the business operation propagates as HTTP 400
with the error text, no idempotency record is queued for the key, and a
subsequent retry that finds the store empty invokes the business
operation again. -/
theorem domain_error_not_cached (g : StoreGet) (now : Int) (rid uid tid msg : String)
    (op2 : BusinessOutcome) (hmiss : check_and_return_existing g now = none) :
    (create_user_flow g now (.domainError msg) rid uid).outcome = .failed 400 msg ∧
    (create_user_flow g now (.domainError msg) rid uid).stored = none ∧
    (create_task_flow g now (.domainError msg) rid uid tid).outcome = .failed 400 msg ∧
    (create_task_flow g now (.domainError msg) rid uid tid).stored = none ∧
    (create_user_flow .absent now op2 rid uid).invoked = true := by
  refine ⟨?_, ?_, rfl, rfl, ?_⟩
  · simp [create_user_flow, hmiss]
  · simp [create_user_flow, hmiss]
  · cases op2 <;> rfl

/-- C4, witness: concrete instance with an absent store. -/
theorem domain_error_not_cached_witness :
    (create_user_flow .absent 0 (.domainError "bad") "u:t" "u").outcome = .failed 400 "bad" ∧
    (create_user_flow .absent 0 (.domainError "bad") "u:t" "u").stored = none ∧
    (create_task_flow .absent 0 (.domainError "bad") "u:t" "u" "t1").outcome = .failed 400 "bad" ∧
    (create_task_flow .absent 0 (.domainError "bad") "u:t" "u" "t1").stored = none ∧
    (create_user_flow .absent 0 (.ok "x") "u:t" "u").invoked = true :=
  domain_error_not_cached .absent 0 "u:t" "u" "t1" "bad" (.ok "x") rfl

/-- C5: two distinct caller identities with the same dedup token always
get distinct composite keys, in `get_request_id` (`dependecies.py`) and in
`IdempotencyService.generate_request_id` alike, so scoped requests never
collide across callers. -/
theorem cross_caller_isolation (req : Request) (ik custom : Option String)
    (fresh u1 u2 : String) (h : u1 ≠ u2) :
    get_request_id req (some u1) ik fresh ≠ get_request_id req (some u2) ik fresh ∧
    generate_request_id (some u1) custom fresh ≠ generate_request_id (some u2) custom fresh :=
  ⟨scope_user_inj u1 u2 _ h, scope_user_inj u1 u2 _ h⟩

/-- C5, witness: callers `a` and `b` sharing token `f` get distinct keys. -/
theorem cross_caller_isolation_witness :
    get_request_id ⟨none, none, none⟩ (some "a") none "f" ≠
      get_request_id ⟨none, none, none⟩ (some "b") none "f" :=
  (cross_caller_isolation ⟨none, none, none⟩ none none "f" "a" "b" (by decide)).1

/-- C7: every record `store_response_async` successfully constructs has
`expiration_timestamp = now + 86400`, the 24-hour retention window. -/
theorem stored_record_expiry_window (rid uid tid data : String) (status now : Int)
    (rec : IdempotencyCreate)
    (h : store_response_async rid uid tid data status now = some rec) :
    rec.expiration_timestamp = now + 86400 := by
  unfold store_response_async mkIdempotencyCreate at h
  split at h
  · cases h
    rfl
  · cases h

/-- C7, witness: a concrete stored record carries `0 + 86400`. -/
theorem stored_record_expiry_window_witness :
    (⟨"r", "d", "TASK#u", "TASK#t", 201, 86400⟩ : IdempotencyCreate).expiration_timestamp =
      0 + 86400 :=
  stored_record_expiry_window "r" "u" "t" "d" 201 0
    ⟨"r", "d", "TASK#u", "TASK#t", 201, 86400⟩ (by decide)

/-- C9: pydantic validation confines `http_status_code` to [100, 599]:
every successfully built `IdempotencyCreate` or `IdempotencyResponse`
satisfies the bounds, and construction with an out-of-range status code
yields nothing. -/
theorem http_status_code_bounds (rid rd pk sk : String) (status exp created : Int) :
    (∀ rec : IdempotencyCreate, mkIdempotencyCreate rid rd pk sk status exp = some rec →
        100 ≤ rec.http_status_code ∧ rec.http_status_code ≤ 599) ∧
    (status < 100 ∨ 599 < status → mkIdempotencyCreate rid rd pk sk status exp = none) ∧
    (∀ rec : IdempotencyResponse,
        mkIdempotencyResponse rid rd pk sk status exp created = some rec →
        100 ≤ rec.http_status_code ∧ rec.http_status_code ≤ 599) := by
  refine ⟨?_, ?_, ?_⟩
  · intro rec h
    unfold mkIdempotencyCreate at h
    split at h
    · rename_i hc
      cases h
      exact ⟨hc.2.2.1, hc.2.2.2⟩
    · cases h
  · intro hout
    unfold mkIdempotencyCreate
    split
    · rename_i hc
      obtain ⟨-, -, h2, h3⟩ := hc
      rcases hout with h1 | h1 <;> omega
    · rfl
  · intro rec h
    unfold mkIdempotencyResponse at h
    split at h
    · rename_i hc
      cases h
      exact ⟨hc.2.2.1, hc.2.2.2⟩
    · cases h

/-- C9, witness: a status code of 700 fails validation. -/
theorem http_status_code_bounds_witness :
    mkIdempotencyCreate "r" "" "" "" 700 0 = none :=
  (http_status_code_bounds "r" "" "" "" 700 0 0).2.1 (Or.inr (by decide))

/-- A stored, unexpired record for key `u:t`, as left by a first
successful create. -/
def freshHitRecord : IdempotencyResponse :=
  ⟨"u:t", statusCreatedBody, "TASK#u", "TASK#t", 201, 1000, 0⟩

/-- C1, code evaluated at the failing input: with a fresh record for the
key present (a guard HIT, conjunct 3), `create_task` still invokes the
business operation (conjunct 1) and answers with the fresh result, not a
replay of the record (conjuncts 2 and 4) — the controller discards the
`check_idempotency` result.  Moreover the record `create_user` stores
carries the sentinel body, not the response body it returned (conjuncts 5
and 6), so even the replaying endpoints cannot satisfy byte-for-byte
replay equivalence with the first response. -/
theorem task_controller_ignores_hit :
    (create_task_flow (.found freshHitRecord) 100
      (.ok "\x7b\"id\": \"task-2\"\x7d") "u:t" "u" "task-2").invoked = true ∧
    (create_task_flow (.found freshHitRecord) 100
      (.ok "\x7b\"id\": \"task-2\"\x7d") "u:t" "u" "task-2").outcome =
      .executed 201 "\x7b\"id\": \"task-2\"\x7d" ∧
    check_and_return_existing (.found freshHitRecord) 100 = some freshHitRecord ∧
    (create_task_flow (.found freshHitRecord) 100
      (.ok "\x7b\"id\": \"task-2\"\x7d") "u:t" "u" "task-2").outcome ≠
      .replayed freshHitRecord.http_status_code freshHitRecord.response_data ∧
    (create_user_flow .absent 100 (.ok "\x7b\"id\": \"u1\"\x7d") "u:t" "u").stored =
      some ⟨"u:t", statusCreatedBody, "TASK#u", "TASK#u", 201, 100 + 86400⟩ ∧
    statusCreatedBody ≠ "\x7b\"id\": \"u1\"\x7d" := by
  refine ⟨rfl, rfl, rfl, by decide, by decide, by decide⟩

/-- C6, counterexample: a task-creation request carrying
`Idempotency-Key: A` and `X-Request-ID: B` gets the token `B` — the task
controller never forwards the deduplication header to `get_request_id`,
so the claimed priority order does not start at `Idempotency-Key` there. -/
theorem task_token_priority_counterexample :
    create_task_request_id ⟨some "A", some "B", none⟩ "u" "F" = "u:B" ∧
    create_task_request_id ⟨some "A", some "B", none⟩ "u" "F" ≠ "u:A" := by
  exact ⟨rfl, by decide⟩

/-- C6, amended: the token chain of `get_request_id` picks the first
truthy value among its `idempotency_key` argument, `X-Request-ID`,
`X-Amzn-RequestId` and the fresh UUID, and is non-empty whenever the
fresh fallback is; the user controller passes the `Idempotency-Key`
header as that first argument, while the task controller passes nothing,
so its priority starts at `X-Request-ID` and the header is ignored. -/
theorem token_priority_amended (ikh xr am : Option String) (fresh s u : String)
    (hf : fresh ≠ "") :
    (ikh = some s → s ≠ "" → pick_base ikh xr am fresh = s) ∧
    (falsyStr ikh → xr = some s → s ≠ "" → pick_base ikh xr am fresh = s) ∧
    (falsyStr ikh → falsyStr xr → am = some s → s ≠ "" →
      pick_base ikh xr am fresh = s) ∧
    (falsyStr ikh → falsyStr xr → falsyStr am → pick_base ikh xr am fresh = fresh) ∧
    pick_base ikh xr am fresh ≠ "" ∧
    create_user_request_id ⟨ikh, xr, am⟩ u fresh =
      scope_user (some u) (pick_base ikh xr am fresh) ∧
    create_task_request_id ⟨ikh, xr, am⟩ u fresh =
      create_task_request_id ⟨none, xr, am⟩ u fresh := by
  refine ⟨?_, ?_, ?_, ?_, ?_, rfl, rfl⟩
  · intro hik hs
    subst hik
    exact orElseStr_truthy s _ hs
  · intro hik hxr hs
    subst hxr
    rw [pick_base, orElseStr_falsy ikh _ hik, orElseStr_truthy s _ hs]
  · intro hik hxr ham hs
    subst ham
    rw [pick_base, orElseStr_falsy ikh _ hik, orElseStr_falsy xr _ hxr,
      orElseStr_truthy s _ hs]
  · intro hik hxr ham
    rw [pick_base, orElseStr_falsy ikh _ hik, orElseStr_falsy xr _ hxr,
      orElseStr_falsy am _ ham]
  · exact orElseStr_ne_empty _ _ (orElseStr_ne_empty _ _ (orElseStr_ne_empty _ _ hf))

/-- C6, witness: with `Idempotency-Key: A` present and truthy, the chain
yields `A`. -/
theorem token_priority_amended_witness :
    pick_base (some "A") (some "B") none "F" = "A" :=
  (token_priority_amended (some "A") (some "B") none "F" "A" "u" (by decide)).1 rfl
    (by decide)

/-- A stored, unexpired record left by a first successful delete: the
sentinel body and status 204. -/
def deletedHitRecord : IdempotencyResponse :=
  ⟨"u:t", statusDeletedBody, "TASK#u", "TASK#u", 204, 1000, 0⟩

/-- C8, counterexample: a duplicate delete whose key has a fresh stored
sentinel record (a guard HIT, conjunct 1) does not replay it: both delete
endpoints re-execute the deletion and return 204 with an empty body
(conjuncts 2 and 4), never the cached sentinel (conjunct 3) — the user
controller comments that 204 responses must not carry a body. -/
theorem delete_replay_counterexample :
    check_and_return_existing (.found deletedHitRecord) 100 = some deletedHitRecord ∧
    (delete_user_flow (.found deletedHitRecord) 100 "u:t" "u").outcome =
      .executed 204 "" ∧
    (delete_user_flow (.found deletedHitRecord) 100 "u:t" "u").outcome ≠
      .replayed 204 statusDeletedBody ∧
    (delete_task_flow (.found deletedHitRecord) 100 "u:t" "u" "t1").outcome =
      .executed 204 "" := by
  refine ⟨rfl, rfl, by decide, rfl⟩

/-- C8, amended: a successful delete is recorded with status 204 and the
explicit sentinel body, but a duplicate delete request re-executes the
deletion and answers 204 with an empty body instead of replaying the
stored sentinel. -/
theorem delete_sentinel_recorded (g : StoreGet) (now : Int) (rid uid : String)
    (rec : IdempotencyCreate)
    (h : (delete_user_flow g now rid uid).stored = some rec) :
    rec.http_status_code = 204 ∧ rec.response_data = statusDeletedBody ∧
    (delete_user_flow g now rid uid).outcome = .executed 204 "" ∧
    (delete_user_flow g now rid uid).invoked = true := by
  refine ⟨?_, ?_, rfl, rfl⟩ <;>
  · simp only [delete_user_flow] at h
    unfold store_response_async mkIdempotencyCreate at h
    split at h
    · cases h
      rfl
    · cases h

/-- C8, witness: concrete delete run on an absent store key. -/
theorem delete_sentinel_recorded_witness :
    (⟨"u:t", statusDeletedBody, "TASK#u", "TASK#u", 204, 86400⟩ :
      IdempotencyCreate).http_status_code = 204 ∧
    (⟨"u:t", statusDeletedBody, "TASK#u", "TASK#u", 204, 86400⟩ :
      IdempotencyCreate).response_data = statusDeletedBody ∧
    (delete_user_flow .absent 0 "u:t" "u").outcome = .executed 204 "" ∧
    (delete_user_flow .absent 0 "u:t" "u").invoked = true :=
  delete_sentinel_recorded .absent 0 "u:t" "u"
    ⟨"u:t", statusDeletedBody, "TASK#u", "TASK#u", 204, 86400⟩ (by decide)

/-- C10: the request id the repository reads back from a stored partition
key `IDEMPOTENCY#\x7brequest_id\x7d` is the prefix of the original
request id before its first `#`; in particular the round trip is the
identity exactly for request ids containing no `#`. -/
theorem roundtrip_request_id (rid : String) :
    item_request_id (create_idempotency_pk rid) = String.mk (beforeHash rid.data) ∧
    ('#' ∉ rid.data → item_request_id (create_idempotency_pk rid) = rid) := by
  have h1 : item_request_id (create_idempotency_pk rid) =
      String.mk (beforeHash rid.data) := by
    unfold item_request_id pySplitHash
    rw [splitHash_pk_cons, List.map_cons]
    have hne := splitHashAux_ne_nil rid.data []
    have hh := splitHashAux_head rid.data []
    obtain ⟨x, xs, hx⟩ := List.exists_cons_of_ne_nil hne
    rw [hx] at hh
    simp only [List.getD_cons_zero, List.reverse_nil, List.nil_append] at hh
    rw [hx, List.map_cons]
    simp [hh]
  refine ⟨h1, fun hmem => ?_⟩
  rw [h1, beforeHash_of_not_mem rid.data hmem]

/-- C10, witness: a hash-free request id survives the round trip. -/
theorem roundtrip_request_id_witness :
    item_request_id (create_idempotency_pk "abc") = "abc" :=
  (roundtrip_request_id "abc").2 (by decide)
